import Mathlib

/-!
Shallow embedding of the shopping-cart / checkout core of the landing page
(`src/unnamed/part_000`) and of the in-memory organization CRUD handlers
(`src/unnamed/part_001`).

Prices are JavaScript numbers in the source; every catalog price is an exact
multiple of 1/4, so all arithmetic the page performs is exact and is embedded
over `ℚ`.  Quantities are embedded as `Int` (the source lets `updateQuantity`
receive any number).  The asynchronous `submitCart` is embedded as a pure
function taking the outcome of the single `fetch` call and the current
wall-clock timestamp as parameters.
-/

namespace Landing

/-- The `Product` interface of the landing page. -/
structure Product where
  id : String
  name : String
  price : ℚ
  image : String
  category : String
  description : String
  inStock : Bool
deriving DecidableEq, Repr

/-- A `CartItem extends Product` with a quantity. -/
structure CartItem extends Product where
  quantity : Int
deriving DecidableEq, Repr

/-- Catalog entry `PLUMBING_PRODUCTS[0]`: id "1", price 450.00. -/
def product1 : Product :=
  { id := "1", name := "Professional Pipe Wrench Set", price := 450,
    image := "https://images.pexels.com/photos/162553/keys-workshop-mechanic-tools-162553.jpeg",
    category := "Tools",
    description := "Heavy-duty pipe wrench set for professional plumbers",
    inStock := true }

/-- Catalog entry `PLUMBING_PRODUCTS[3]`: id "4", price 185.75. -/
def product4 : Product :=
  { id := "4", name := "PVC Pipe Bundle - 4 inch", price := 185.75,
    image := "https://images.pexels.com/photos/1108572/pexels-photo-1108572.jpeg",
    category := "Pipes",
    description := "4-inch PVC pipes, 6-meter length bundle",
    inStock := true }

/-- The `addToCart` handler: if a line for `product.id` exists, increment its quantity by 1
    (via `map`); otherwise append a new line with quantity 1. -/
def addToCart (product : Product) (cart : List CartItem) : List CartItem :=
  match cart.find? (fun item => item.id == product.id) with
  | some _ =>
      cart.map (fun item =>
        if item.id == product.id then { item with quantity := item.quantity + 1 }
        else item)
  | none => cart ++ [{ toProduct := product, quantity := 1 }]

/-- The `removeFromCart` handler: keep the lines whose id differs from `productId`. -/
def removeFromCart (productId : String) (cart : List CartItem) : List CartItem :=
  cart.filter (fun item => item.id != productId)

/-- The `updateQuantity` handler: quantity ≤ 0 removes the line; otherwise the line for
    `productId` is set to exactly `quantity`. -/
def updateQuantity (productId : String) (quantity : Int) (cart : List CartItem) :
    List CartItem :=
  if quantity ≤ 0 then removeFromCart productId cart
  else
    cart.map (fun item =>
      if item.id == productId then { item with quantity := quantity } else item)

/-- The `getTotalPrice` query: `cart.reduce((total, item) => total + item.price * item.quantity, 0)`. -/
def getTotalPrice (cart : List CartItem) : ℚ :=
  cart.foldl (fun total item => total + item.price * (item.quantity : ℚ)) 0

/-- The `customerInfo` state: `{ name, email, phone, address }`, all strings. -/
structure CustomerInfo where
  name : String
  email : String
  phone : String
  address : String
deriving DecidableEq, Repr

/-- The initial (and post-success reset) customer info: all fields empty. -/
def emptyCustomerInfo : CustomerInfo :=
  { name := "", email := "", phone := "", address := "" }

/-- The page state the checkout flow touches: `cart`, `customerInfo`, `isCartOpen`. -/
structure PageState where
  cart : List CartItem
  customerInfo : CustomerInfo
  isCartOpen : Bool
deriving DecidableEq, Repr

/-- One `toast(...)` call: title, description and the optional `variant` field. -/
structure Toast where
  title : String
  description : String
  variant : Option String
deriving DecidableEq, Repr

/-- Toast emitted when the cart is empty. -/
def cartEmptyToast : Toast :=
  { title := "Cart is empty",
    description := "Please add items to your cart before submitting.",
    variant := some "destructive" }

/-- Toast emitted when name or email is missing. -/
def missingInfoToast : Toast :=
  { title := "Missing information",
    description := "Please fill in your name and email address.",
    variant := some "destructive" }

/-- Toast emitted on a successful submission. -/
def successToast : Toast :=
  { title := "Cart submitted!",
    description := "Your cart has been sent to our team. We\u0027ll contact you soon.",
    variant := none }

/-- Toast emitted when the request failed (non-ok status or thrown error). -/
def failureToast : Toast :=
  { title := "Submission failed",
    description := "There was an error submitting your cart. Please try again.",
    variant := some "destructive" }

/-- The `cartData` payload built at submit time. -/
structure Submission where
  customer : CustomerInfo
  items : List CartItem
  total : ℚ
  timestamp : String
deriving DecidableEq, Repr

/-- The JSON body of the POST to `/api/send-cart-email`; `toAddr` embeds the
    field named `to` in the source (`to` is reserved in Lean). -/
structure EmailRequest where
  toAddr : String
  subject : String
  cartData : Submission
deriving DecidableEq, Repr

/-- Outcome of the single `fetch` call: a response with its `ok` flag, or a
    transport-level exception thrown before any response arrives. -/
inductive FetchOutcome where
  | response (ok : Bool)
  | transportError
deriving DecidableEq, Repr

/-- Which branch of `submitCart` ran; named after the error taxonomy of the
    specification (empty cart, missing contact info, delivery success/failure). -/
inductive SubmitOutcome where
  | emptyCartError
  | missingContactInfoError
  | success
  | failure
deriving DecidableEq, Repr

/-- Everything observable about one `submitCart()` call: the page state after
    the call, the toasts emitted (in order), the outbound request if one was
    made, and which branch ran. -/
structure SubmitResult where
  state : PageState
  toasts : List Toast
  call : Option EmailRequest
  outcome : SubmitOutcome
deriving DecidableEq, Repr

/-- The `submitCart` handler, embedded as a pure function of the fetch outcome, the current
    ISO timestamp and the page state.  The source checks `cart.length === 0`,
    then `!customerInfo.name || !customerInfo.email` (JavaScript falsiness of a
    string is emptiness), builds `cartData`, POSTs it, and on `response.ok`
    resets the cart, the customer info and closes the cart view; a non-ok
    response throws into the same `catch` that handles transport errors. -/
def submitCart (fetchOutcome : FetchOutcome) (now : String) (s : PageState) :
    SubmitResult :=
  if s.cart.length = 0 then
    { state := s, toasts := [cartEmptyToast], call := none,
      outcome := .emptyCartError }
  else if s.customerInfo.name = "" || s.customerInfo.email = "" then
    { state := s, toasts := [missingInfoToast], call := none,
      outcome := .missingContactInfoError }
  else
    let cartData : Submission :=
      { customer := s.customerInfo, items := s.cart,
        total := getTotalPrice s.cart, timestamp := now }
    let req : EmailRequest :=
      { toAddr := "admin@bbplumbing.co.za",
        subject := "New Cart Submission - BlockBusters Plumbing",
        cartData := cartData }
    match fetchOutcome with
    | .response true =>
        { state := { cart := [], customerInfo := emptyCustomerInfo,
                     isCartOpen := false },
          toasts := [successToast], call := some req, outcome := .success }
    | .response false =>
        { state := s, toasts := [failureToast], call := some req,
          outcome := .failure }
    | .transportError =>
        { state := s, toasts := [failureToast], call := some req,
          outcome := .failure }

/-- One user action on the cart: `addToCart`, `removeFromCart` or
    `updateQuantity`. -/
inductive CartOp where
  | add (product : Product)
  | remove (productId : String)
  | setQty (productId : String) (quantity : Int)
deriving Repr

/-- Apply one cart operation. -/
def applyCartOp (cart : List CartItem) : CartOp → List CartItem
  | .add p => addToCart p cart
  | .remove i => removeFromCart i cart
  | .setQty i q => updateQuantity i q cart

/-- Run a sequence of cart operations from the initial empty cart
    (`useState<CartItem[]>([])`). -/
def runCartOps (ops : List CartOp) : List CartItem :=
  ops.foldl applyCartOp []

/-- The cart invariants: every line has positive quantity and the line ids are
    pairwise distinct. -/
def cartWellFormed (cart : List CartItem) : Prop :=
  (∀ l ∈ cart, 0 < l.quantity) ∧ (cart.map (fun l => l.id)).Nodup

/-- Scenario C cart: id "1" with quantity 2, id "4" with quantity 1. -/
def scenarioCCart : List CartItem :=
  [{ toProduct := product1, quantity := 2 },
   { toProduct := product4, quantity := 1 }]

/-- Scenario C page state: two-line cart, Jane's contact info, cart view open. -/
def scenarioCState : PageState :=
  { cart := scenarioCCart,
    customerInfo := { name := "Jane", email := "jane@x.com", phone := "", address := "" },
    isCartOpen := true }

/-- Scenario B cart: one line, id "1" at 450.00, quantity 1. -/
def scenarioBCart : List CartItem :=
  [{ toProduct := product1, quantity := 1 }]

/-- Scenario B state where only the name field is missing. -/
def stateNameMissing : PageState :=
  { cart := scenarioBCart,
    customerInfo := { name := "", email := "jane@x.com", phone := "", address := "" },
    isCartOpen := true }

/-- Scenario B state where only the email field is missing. -/
def stateEmailMissing : PageState :=
  { cart := scenarioBCart,
    customerInfo := { name := "Jane", email := "", phone := "", address := "" },
    isCartOpen := true }

/-- A state whose name and email are whitespace-only strings. -/
def stateWhitespaceInfo : PageState :=
  { cart := scenarioBCart,
    customerInfo := { name := " ", email := "  ", phone := "", address := "" },
    isCartOpen := true }

end Landing

namespace Organizations

/-- An `Organization` record: `{id, name, createdAt, logoUrl?, settings?}`.
    The shape of `settings` is opaque to the handlers; it is embedded as a
    string payload. -/
structure Organization where
  id : String
  name : String
  createdAt : String
  logoUrl : Option String
  settings : Option String
deriving DecidableEq, Repr

/-- A request body for create/update: each field either absent or a string. -/
structure OrgBody where
  name : Option String
  logoUrl : Option String
  settings : Option String
deriving DecidableEq, Repr

/-- JavaScript falsiness of an optional string field: absent or empty. -/
def strFalsy : Option String → Bool
  | none => true
  | some s => s = ""

/-- The `req.user` fields the handlers read: `role` and `organizations`
    (the latter `none` when it is absent or not an array). -/
structure Caller where
  role : Option String
  organizations : Option (List String)
deriving DecidableEq, Repr

/-- What a handler sends back. -/
inductive OrgResponse where
  | orgJson (status : Nat) (org : Organization)
  | orgListJson (list : List Organization)
  | errorJson (status : Nat) (msg : String)
  | noContent (status : Nat)
deriving DecidableEq, Repr

/-- The `handleCreateOrganization` handler: reject a falsy `name` with 400; otherwise push
    a new record (id and createdAt are produced by `Date.now()`/the counter and
    `new Date()`, passed here as parameters) and answer 201.  Falsy `logoUrl`
    or `settings` are left out of the record. -/
def handleCreateOrganization (body : OrgBody) (genId now : String)
    (orgs : List Organization) : List Organization × OrgResponse :=
  if strFalsy body.name then
    (orgs, .errorJson 400 "Organization name is required")
  else
    let newOrg : Organization :=
      { id := genId, name := body.name.getD "", createdAt := now,
        logoUrl := if strFalsy body.logoUrl then none else body.logoUrl,
        settings := if strFalsy body.settings then none else body.settings }
    (orgs ++ [newOrg], .orgJson 201 newOrg)

/-- The `handleGetOrganizations` handler: a `super_admin` caller gets the whole array;
    anyone else gets the records whose id is in `currentUser.organizations`
    (treated as `[]` when absent).  The registry is not written. -/
def handleGetOrganizations (caller : Option Caller)
    (orgs : List Organization) : List Organization × OrgResponse :=
  if caller.bind Caller.role = some "super_admin" then
    (orgs, .orgListJson orgs)
  else
    let uOrgs : List String := (caller.bind Caller.organizations).getD []
    (orgs, .orgListJson (orgs.filter (fun org => uOrgs.contains org.id)))

/-- The `handleUpdateOrganization` handler: find the record by id (404 when absent) and
    overwrite it with a copy where each truthy field of the body replaces the
    old value; falsy fields are left out of the spread and keep the old value. -/
def handleUpdateOrganization (orgId : String) (updates : OrgBody)
    (orgs : List Organization) : List Organization × OrgResponse :=
  let idx := orgs.findIdx (fun o => o.id == orgId)
  if h : idx < orgs.length then
    let old := orgs.get ⟨idx, h⟩
    let updated : Organization :=
      { old with
        name := if strFalsy updates.name then old.name else updates.name.getD ""
        logoUrl := if strFalsy updates.logoUrl then old.logoUrl else updates.logoUrl
        settings := if strFalsy updates.settings then old.settings else updates.settings }
    (orgs.set idx updated, .orgJson 200 updated)
  else
    (orgs, .errorJson 404 "Organization not found")

/-- The `handleDeleteOrganization` handler: find the record by id (404 when absent) and
    `splice` it out, answering 204. -/
def handleDeleteOrganization (orgId : String)
    (orgs : List Organization) : List Organization × OrgResponse :=
  let idx := orgs.findIdx (fun o => o.id == orgId)
  if idx < orgs.length then
    (orgs.eraseIdx idx, .noContent 204)
  else
    (orgs, .errorJson 404 "Organization not found")

/-- The registry invariant: every organization record has a non-empty name. -/
def orgNamesNonEmpty (orgs : List Organization) : Prop :=
  ∀ o ∈ orgs, o.name ≠ ""

/-- A sample organization record used by witnesses. -/
def orgA : Organization :=
  { id := "org-1-1", name := "Acme", createdAt := "2024-01-01T00:00:00.000Z",
    logoUrl := none, settings := none }

/-- A second sample organization record used by witnesses. -/
def orgB : Organization :=
  { id := "org-1-2", name := "Globex", createdAt := "2024-01-02T00:00:00.000Z",
    logoUrl := none, settings := none }

end Organizations

/-! ## Helper lemmas -/

open Landing Organizations

theorem foldl_price (cart : List CartItem) (a : ℚ) :
    cart.foldl (fun total item => total + item.price * (item.quantity : ℚ)) a
      = a + (cart.map (fun l => l.price * (l.quantity : ℚ))).sum := by
  induction cart generalizing a with
  | nil => simp
  | cons c cs ih =>
    simp only [List.foldl_cons, List.map_cons, List.sum_cons, ih]
    ring

theorem getTotalPrice_eq_sum (cart : List CartItem) :
    getTotalPrice cart = (cart.map (fun l => l.price * (l.quantity : ℚ))).sum := by
  simpa [getTotalPrice] using foldl_price cart 0

theorem find?_id_eq_none (cart : List CartItem) (pid : String) :
    cart.find? (fun item => item.id == pid) = none ↔ ∀ l ∈ cart, l.id ≠ pid := by
  simp [List.find?_eq_none]

theorem map_if_id (g : CartItem → CartItem) (hg : ∀ i, (g i).id = i.id)
    (pid : String) (cart : List CartItem) :
    (cart.map (fun item => if item.id == pid then g item else item)).map
        (fun l => l.id)
      = cart.map (fun l => l.id) := by
  rw [List.map_map]
  apply List.map_congr_left
  intro a _
  by_cases h : a.id = pid <;> simp [h, hg]

theorem map_if_eq_self (g : CartItem → CartItem) (pid : String)
    (cart : List CartItem) (h : ∀ l ∈ cart, l.id ≠ pid) :
    cart.map (fun item => if item.id == pid then g item else item) = cart := by
  induction cart with
  | nil => rfl
  | cons c cs ih =>
    simp only [List.map_cons]
    rw [if_neg (by simp [h c (List.mem_cons_self c cs)]),
      ih (fun l hl => h l (List.mem_cons_of_mem c hl))]

theorem map_if_set (g : CartItem → CartItem) (pid : String) :
    ∀ (cart : List CartItem), (cart.map (fun l => l.id)).Nodup →
      ∀ i (hi : i < cart.length), (cart.get ⟨i, hi⟩).id = pid →
      cart.map (fun item => if item.id == pid then g item else item)
        = cart.set i (g (cart.get ⟨i, hi⟩)) := by
  intro cart
  induction cart with
  | nil =>
    intro _ i hi
    exact absurd hi (by simp)
  | cons c cs ih =>
    intro hnd i hi hid
    rw [List.map_cons, List.nodup_cons] at hnd
    cases i with
    | zero =>
      simp only [List.get] at hid ⊢
      rw [List.map_cons, if_pos (by simp [hid]), List.set_cons_zero]
      congr 1
      apply map_if_eq_self
      intro l hl heq
      exact hnd.1 (by
        rw [hid, ← heq]
        exact List.mem_map_of_mem (fun l => l.id) hl)
    | succ n =>
      have hn : n < cs.length := by simpa using hi
      simp only [List.get] at hid ⊢
      have hc : c.id ≠ pid := by
        intro hc
        exact hnd.1 (by
          rw [hc, ← hid]
          exact List.mem_map_of_mem (fun l => l.id) (cs.get_mem n hn))
      rw [List.map_cons, if_neg (by simp [hc]), List.set_cons_succ,
        ih hnd.2 n hn hid]

theorem cartWellFormed_applyCartOp (cart : List CartItem) (op : CartOp)
    (h : cartWellFormed cart) : cartWellFormed (applyCartOp cart op) := by
  obtain ⟨hq, hnd⟩ := h
  cases op with
  | add p =>
    show cartWellFormed (addToCart p cart)
    unfold addToCart
    cases hf : cart.find? (fun item => item.id == p.id) with
    | some x =>
      constructor
      · intro l hl
        obtain ⟨a, ha, rfl⟩ := List.mem_map.mp hl
        by_cases hid : a.id = p.id <;> simp [hid]
        · have := hq a ha
          omega
        · exact hq a ha
      · rw [map_if_id (fun item => { item with quantity := item.quantity + 1 })
          (fun i => rfl) p.id cart]
        exact hnd
    | none =>
      have habs : ∀ l ∈ cart, l.id ≠ p.id := (find?_id_eq_none cart p.id).mp hf
      constructor
      · intro l hl
        rcases List.mem_append.mp hl with hl | hl
        · exact hq l hl
        · simp at hl
          simp [hl]
      · rw [List.map_append]
        rw [List.nodup_append]
        refine ⟨hnd, by simp, ?_⟩
        intro a ha
        simp only [List.map_cons, List.map_nil, List.mem_singleton]
        obtain ⟨l, hl, rfl⟩ := List.mem_map.mp ha
        exact habs l hl
  | remove i =>
    show cartWellFormed (removeFromCart i cart)
    unfold removeFromCart
    constructor
    · intro l hl
      exact hq l (List.mem_of_mem_filter hl)
    · exact List.Nodup.sublist
        (List.Sublist.map (fun l => l.id) (List.filter_sublist cart)) hnd
  | setQty i q =>
    show cartWellFormed (updateQuantity i q cart)
    unfold updateQuantity
    by_cases hq0 : q ≤ 0
    · rw [if_pos hq0]
      unfold removeFromCart
      constructor
      · intro l hl
        exact hq l (List.mem_of_mem_filter hl)
      · exact List.Nodup.sublist
          (List.Sublist.map (fun l => l.id) (List.filter_sublist cart)) hnd
    · rw [if_neg hq0]
      constructor
      · intro l hl
        obtain ⟨a, ha, rfl⟩ := List.mem_map.mp hl
        by_cases hid : a.id = i <;> simp [hid]
        · omega
        · exact hq a ha
      · rw [map_if_id (fun item => { item with quantity := q })
          (fun i => rfl) i cart]
        exact hnd

theorem cartWellFormed_foldl (ops : List CartOp) :
    ∀ cart, cartWellFormed cart → cartWellFormed (ops.foldl applyCartOp cart) := by
  induction ops with
  | nil => intro cart h; exact h
  | cons op rest ih =>
    intro cart h
    exact ih (applyCartOp cart op) (cartWellFormed_applyCartOp cart op h)

/-- C1: running any sequence of `addToCart`/`removeFromCart`/`updateQuantity`
    operations from the empty cart yields a cart in which every line has a
    positive quantity, the line ids are pairwise distinct, and `getTotalPrice`
    equals the sum of price × quantity over the lines. -/
theorem claim_C1_cart_invariants (ops : List CartOp) :
    (∀ l ∈ runCartOps ops, 0 < l.quantity) ∧
    ((runCartOps ops).map (fun l => l.id)).Nodup ∧
    getTotalPrice (runCartOps ops)
      = ((runCartOps ops).map (fun l => l.price * (l.quantity : ℚ))).sum := by
  have h : cartWellFormed (runCartOps ops) :=
    cartWellFormed_foldl ops [] ⟨by simp, by simp⟩
  exact ⟨h.1, h.2, getTotalPrice_eq_sum (runCartOps ops)⟩

/-- C6: `addToCart x` appends a fresh line with quantity 1 when no line for
    `x.id` exists; when the line at index `i` has id `x.id` (ids distinct), it
    replaces only that line, with its quantity incremented by exactly 1; adding
    the same product twice to a cart without it yields one appended line of
    quantity 2, not two lines. -/
theorem claim_C6_addToCart_spec (cart : List CartItem) (x : Product) :
    (cart.find? (fun item => item.id == x.id) = none →
       addToCart x cart = cart ++ [{ toProduct := x, quantity := 1 }])
    ∧ ((cart.map (fun l => l.id)).Nodup →
       ∀ i (hi : i < cart.length), (cart.get ⟨i, hi⟩).id = x.id →
         addToCart x cart
           = cart.set i
               { cart.get ⟨i, hi⟩ with quantity := (cart.get ⟨i, hi⟩).quantity + 1 })
    ∧ ((∀ l ∈ cart, l.id ≠ x.id) →
       addToCart x (addToCart x cart) = cart ++ [{ toProduct := x, quantity := 2 }]) := by
  refine ⟨?_, ?_, ?_⟩
  · intro hf
    unfold addToCart
    rw [hf]
  · intro hnd i hi hid
    have hsome : (cart.find? (fun item => item.id == x.id)).isSome := by
      rw [List.find?_isSome]
      exact ⟨cart.get ⟨i, hi⟩, cart.get_mem i hi, by simpa using hid⟩
    unfold addToCart
    cases hf : cart.find? (fun item => item.id == x.id) with
    | none => rw [hf] at hsome; simp at hsome
    | some y =>
      exact map_if_set (fun item => { item with quantity := item.quantity + 1 })
        x.id cart hnd i hi (by simpa using hid)
  · intro habs
    have hf : cart.find? (fun item => item.id == x.id) = none :=
      (find?_id_eq_none cart x.id).mpr habs
    have h1 : addToCart x cart = cart ++ [{ toProduct := x, quantity := 1 }] := by
      unfold addToCart
      rw [hf]
    rw [h1]
    unfold addToCart
    rw [List.find?_append, hf]
    simp only [Option.none_or]
    rw [show ([{ toProduct := x, quantity := 1 }] :
        List CartItem).find? (fun item => item.id == x.id)
      = some { toProduct := x, quantity := 1 } by simp [List.find?]]
    rw [List.map_append, map_if_eq_self _ _ _ habs]
    simp [List.find?]

/-- C7: `updateQuantity pid q` with `q ≤ 0` is `removeFromCart pid`; with
    `q ≥ 1` it is a no-op when no line for `pid` exists and otherwise replaces
    only the line for `pid`, setting its quantity to exactly `q`;
    `removeFromCart` on an absent id is a no-op. -/
theorem claim_C7_setQuantity_spec (cart : List CartItem) (pid : String) (q : Int) :
    (q ≤ 0 → updateQuantity pid q cart = removeFromCart pid cart)
    ∧ (1 ≤ q → cart.find? (fun item => item.id == pid) = none →
        updateQuantity pid q cart = cart)
    ∧ (1 ≤ q → (cart.map (fun l => l.id)).Nodup →
        ∀ i (hi : i < cart.length), (cart.get ⟨i, hi⟩).id = pid →
          updateQuantity pid q cart
            = cart.set i { cart.get ⟨i, hi⟩ with quantity := q })
    ∧ (cart.find? (fun item => item.id == pid) = none →
        removeFromCart pid cart = cart) := by
  refine ⟨?_, ?_, ?_, ?_⟩
  · intro hq
    unfold updateQuantity
    rw [if_pos hq]
  · intro hq hf
    unfold updateQuantity
    rw [if_neg (by omega)]
    exact map_if_eq_self _ pid cart ((find?_id_eq_none cart pid).mp hf)
  · intro hq hnd i hi hid
    unfold updateQuantity
    rw [if_neg (by omega)]
    exact map_if_set (fun item => { item with quantity := q }) pid cart hnd i hi
      (by simpa using hid)
  · intro hf
    unfold removeFromCart
    apply List.filter_eq_self.mpr
    intro a ha
    have h := (find?_id_eq_none cart pid).mp hf a ha
    simp [h]

/-- Witness for C6 at the one-line cart `scenarioBCart`: appending a new
    product, incrementing an existing line, and the double-add behavior. -/
theorem claim_C6_addToCart_spec_witness :
    addToCart product4 scenarioBCart
      = scenarioBCart ++ [{ toProduct := product4, quantity := 1 }]
    ∧ addToCart product1 scenarioBCart
      = scenarioBCart.set 0
          { scenarioBCart.get ⟨0, by decide⟩ with
            quantity := (scenarioBCart.get ⟨0, by decide⟩).quantity + 1 }
    ∧ addToCart product4 (addToCart product4 scenarioBCart)
      = scenarioBCart ++ [{ toProduct := product4, quantity := 2 }] :=
  ⟨(claim_C6_addToCart_spec scenarioBCart product4).1 (by decide),
   (claim_C6_addToCart_spec scenarioBCart product1).2.1 (by decide) 0 (by decide)
     (by decide),
   (claim_C6_addToCart_spec scenarioBCart product4).2.2 (by decide)⟩

/-- Witness for C7 at the one-line cart `scenarioBCart`: quantity 0 removes,
    quantity 5 on an absent id is a no-op, quantity 5 on the present id sets it
    exactly, and removing an absent id is a no-op. -/
theorem claim_C7_setQuantity_spec_witness :
    updateQuantity "1" 0 scenarioBCart = removeFromCart "1" scenarioBCart
    ∧ updateQuantity "9" 5 scenarioBCart = scenarioBCart
    ∧ updateQuantity "1" 5 scenarioBCart
      = scenarioBCart.set 0 { scenarioBCart.get ⟨0, by decide⟩ with quantity := 5 }
    ∧ removeFromCart "9" scenarioBCart = scenarioBCart :=
  ⟨(claim_C7_setQuantity_spec scenarioBCart "1" 0).1 (by decide),
   (claim_C7_setQuantity_spec scenarioBCart "9" 5).2.1 (by decide) (by decide),
   (claim_C7_setQuantity_spec scenarioBCart "1" 5).2.2.1 (by decide) (by decide) 0
     (by decide) (by decide),
   (claim_C7_setQuantity_spec scenarioBCart "9" 5).2.2.2 (by decide)⟩

/-- C2: when the cart is non-empty and name and email are non-empty, a
    successful outbound call resets the cart to empty and all four customer
    fields to empty strings, emits exactly one success notification, closes
    the cart view, and the submitted payload carries the cart and its total;
    on the two-line Scenario C cart the submitted total is 1085.75. -/
theorem claim_C2_submit_success (s : PageState) (now : String)
    (hc : s.cart.length ≠ 0)
    (hn : s.customerInfo.name ≠ "") (he : s.customerInfo.email ≠ "") :
    ((submitCart (.response true) now s).state.cart = []
    ∧ (submitCart (.response true) now s).state.customerInfo = emptyCustomerInfo
    ∧ (submitCart (.response true) now s).state.isCartOpen = false
    ∧ (submitCart (.response true) now s).toasts = [successToast]
    ∧ (submitCart (.response true) now s).outcome = .success
    ∧ (submitCart (.response true) now s).call
        = some { toAddr := "admin@bbplumbing.co.za",
                 subject := "New Cart Submission - BlockBusters Plumbing",
                 cartData := { customer := s.customerInfo, items := s.cart,
                               total := getTotalPrice s.cart, timestamp := now } })
    ∧ (submitCart (.response true) now scenarioCState).call.map
        (fun r => r.cartData.total) = some 1085.75 := by
  have hG : ∀ (t : PageState), t.cart.length ≠ 0 → t.customerInfo.name ≠ "" →
      t.customerInfo.email ≠ "" →
      submitCart (.response true) now t =
        { state := { cart := [], customerInfo := emptyCustomerInfo,
                     isCartOpen := false },
          toasts := [successToast],
          call := some { toAddr := "admin@bbplumbing.co.za",
                         subject := "New Cart Submission - BlockBusters Plumbing",
                         cartData := { customer := t.customerInfo, items := t.cart,
                                       total := getTotalPrice t.cart,
                                       timestamp := now } },
          outcome := .success } := by
    intro t h1 h2 h3
    simp [submitCart, h1, h2, h3]
  have h := hG s hc hn he
  have hC := hG scenarioCState (by decide) (by decide) (by decide)
  refine ⟨⟨by rw [h], by rw [h], by rw [h], by rw [h], by rw [h], by rw [h]⟩, ?_⟩
  rw [hC]
  simp only [Option.map_some']
  norm_num [scenarioCState, getTotalPrice, scenarioCCart, product1, product4]

/-- Witness for C2 at Scenario C: two lines (id "1" qty 2 at 450.00, id "4"
    qty 1 at 185.75) with Jane's contact info; the call succeeds. -/
theorem claim_C2_submit_success_witness :
    (submitCart (.response true) "2024-01-01T00:00:00.000Z" scenarioCState).state.cart = []
    ∧ (submitCart (.response true) "2024-01-01T00:00:00.000Z" scenarioCState).state.customerInfo
        = emptyCustomerInfo
    ∧ (submitCart (.response true) "2024-01-01T00:00:00.000Z" scenarioCState).toasts
        = [successToast]
    ∧ (submitCart (.response true) "2024-01-01T00:00:00.000Z" scenarioCState).call.map
        (fun r => r.cartData.total) = some 1085.75 :=
  ⟨(claim_C2_submit_success scenarioCState "2024-01-01T00:00:00.000Z"
      (by decide) (by decide) (by decide)).1.1,
   (claim_C2_submit_success scenarioCState "2024-01-01T00:00:00.000Z"
      (by decide) (by decide) (by decide)).1.2.1,
   (claim_C2_submit_success scenarioCState "2024-01-01T00:00:00.000Z"
      (by decide) (by decide) (by decide)).1.2.2.2.1,
   (claim_C2_submit_success scenarioCState "2024-01-01T00:00:00.000Z"
      (by decide) (by decide) (by decide)).2⟩

/-- C3: once the preconditions pass, a non-ok response and a transport error
    both leave the whole page state unchanged, emit exactly one failure
    notification, and that notification is identical in the two cases. -/
theorem claim_C3_submit_failure (s : PageState) (now : String)
    (hc : s.cart.length ≠ 0)
    (hn : s.customerInfo.name ≠ "") (he : s.customerInfo.email ≠ "") :
    ((submitCart (.response false) now s).state = s
      ∧ (submitCart (.response false) now s).toasts = [failureToast]
      ∧ (submitCart (.response false) now s).outcome = .failure)
    ∧ ((submitCart .transportError now s).state = s
      ∧ (submitCart .transportError now s).toasts = [failureToast]
      ∧ (submitCart .transportError now s).outcome = .failure)
    ∧ (submitCart (.response false) now s).toasts
        = (submitCart .transportError now s).toasts := by
  refine ⟨⟨?_, ?_, ?_⟩, ⟨?_, ?_, ?_⟩, ?_⟩ <;> simp [submitCart, hc, hn, he]

/-- Witness for C3 at Scenario C and a failing (status 500 style) response. -/
theorem claim_C3_submit_failure_witness :
    (submitCart (.response false) "t" scenarioCState).state = scenarioCState
    ∧ (submitCart (.response false) "t" scenarioCState).toasts = [failureToast]
    ∧ (submitCart .transportError "t" scenarioCState).state = scenarioCState
    ∧ (submitCart (.response false) "t" scenarioCState).toasts
        = (submitCart .transportError "t" scenarioCState).toasts :=
  ⟨(claim_C3_submit_failure scenarioCState "t" (by decide) (by decide) (by decide)).1.1,
   (claim_C3_submit_failure scenarioCState "t" (by decide) (by decide) (by decide)).1.2.1,
   (claim_C3_submit_failure scenarioCState "t" (by decide) (by decide) (by decide)).2.1.1,
   (claim_C3_submit_failure scenarioCState "t" (by decide) (by decide) (by decide)).2.2⟩

/-- C4: submitting with an empty cart takes the empty-cart branch, emits
    exactly one destructive (warning) notification, makes no outbound call,
    and leaves the state unchanged (cart still empty, info untouched). -/
theorem claim_C4_submit_empty_cart (s : PageState) (o : FetchOutcome) (now : String)
    (h : s.cart = []) :
    (submitCart o now s).outcome = .emptyCartError
    ∧ (submitCart o now s).toasts = [cartEmptyToast]
    ∧ cartEmptyToast.variant = some "destructive"
    ∧ (submitCart o now s).call = none
    ∧ (submitCart o now s).state = s := by
  refine ⟨?_, ?_, rfl, ?_, ?_⟩ <;> simp [submitCart, h]

/-- Witness for C4 at the initial page state (empty cart, empty info). -/
theorem claim_C4_submit_empty_cart_witness :
    (submitCart (.response true) "t"
        { cart := [], customerInfo := emptyCustomerInfo, isCartOpen := false }).outcome
      = .emptyCartError
    ∧ (submitCart (.response true) "t"
        { cart := [], customerInfo := emptyCustomerInfo, isCartOpen := false }).toasts
      = [cartEmptyToast]
    ∧ (submitCart (.response true) "t"
        { cart := [], customerInfo := emptyCustomerInfo, isCartOpen := false }).call
      = none
    ∧ (submitCart (.response true) "t"
        { cart := [], customerInfo := emptyCustomerInfo, isCartOpen := false }).state
      = { cart := [], customerInfo := emptyCustomerInfo, isCartOpen := false } :=
  ⟨(claim_C4_submit_empty_cart _ (.response true) "t" rfl).1,
   (claim_C4_submit_empty_cart _ (.response true) "t" rfl).2.1,
   (claim_C4_submit_empty_cart _ (.response true) "t" rfl).2.2.2.1,
   (claim_C4_submit_empty_cart _ (.response true) "t" rfl).2.2.2.2⟩

/-- C5 counterexample: the warning notification emitted when only the name is
    missing is identical to the one emitted when only the email is missing —
    one fixed message — so the notification does not name the specific missing
    fields. -/
theorem claim_C5_counterexample :
    (submitCart (.response true) "t" stateNameMissing).toasts
      = (submitCart (.response true) "t" stateEmailMissing).toasts
    ∧ (submitCart (.response true) "t" stateNameMissing).toasts = [missingInfoToast]
    ∧ missingInfoToast.description
        = "Please fill in your name and email address." := by
  refine ⟨?_, ?_, rfl⟩ <;> decide

/-- C5 as amended: with a non-empty cart and a falsy name or email, submit
    takes the missing-contact-info branch, emits exactly one destructive
    (warning) notification with the fixed message asking for name and email,
    makes no outbound call, and leaves the state unchanged. -/
theorem claim_C5_missing_info (s : PageState) (o : FetchOutcome) (now : String)
    (hc : s.cart.length ≠ 0)
    (hm : s.customerInfo.name = "" ∨ s.customerInfo.email = "") :
    (submitCart o now s).outcome = .missingContactInfoError
    ∧ (submitCart o now s).toasts = [missingInfoToast]
    ∧ missingInfoToast.variant = some "destructive"
    ∧ missingInfoToast.description = "Please fill in your name and email address."
    ∧ (submitCart o now s).call = none
    ∧ (submitCart o now s).state = s := by
  rcases hm with h | h <;>
    refine ⟨?_, ?_, rfl, rfl, ?_, ?_⟩ <;> simp [submitCart, hc, h]

/-- Witness for C5 at Scenario B (one line, id "1", both contact fields
    missing on the email side). -/
theorem claim_C5_missing_info_witness :
    (submitCart (.response true) "t" stateEmailMissing).outcome
      = .missingContactInfoError
    ∧ (submitCart (.response true) "t" stateEmailMissing).toasts = [missingInfoToast]
    ∧ (submitCart (.response true) "t" stateEmailMissing).call = none
    ∧ (submitCart (.response true) "t" stateEmailMissing).state = stateEmailMissing :=
  ⟨(claim_C5_missing_info stateEmailMissing (.response true) "t"
      (by decide) (Or.inr (by decide))).1,
   (claim_C5_missing_info stateEmailMissing (.response true) "t"
      (by decide) (Or.inr (by decide))).2.1,
   (claim_C5_missing_info stateEmailMissing (.response true) "t"
      (by decide) (Or.inr (by decide))).2.2.2.2.1,
   (claim_C5_missing_info stateEmailMissing (.response true) "t"
      (by decide) (Or.inr (by decide))).2.2.2.2.2⟩

/-- C8: the contact validation only tests string emptiness: with a non-empty
    cart, any non-empty name and email (whitespace-only included) pass the
    precondition and the outbound call is made, while an empty name or email
    is rejected before any call. -/
theorem claim_C8_falsy_validation (s : PageState) (o : FetchOutcome) (now : String)
    (hc : s.cart.length ≠ 0) :
    (s.customerInfo.name ≠ "" → s.customerInfo.email ≠ "" →
      ((submitCart o now s).call.isSome = true
        ∧ (submitCart o now s).outcome ≠ .missingContactInfoError
        ∧ (submitCart o now s).outcome ≠ .emptyCartError))
    ∧ (s.customerInfo.name = "" ∨ s.customerInfo.email = "" →
      ((submitCart o now s).call = none
        ∧ (submitCart o now s).outcome = .missingContactInfoError)) := by
  constructor
  · intro hn he
    cases o with
    | response ok =>
        cases ok <;> refine ⟨?_, ?_, ?_⟩ <;> simp [submitCart, hc, hn, he]
    | transportError => refine ⟨?_, ?_, ?_⟩ <;> simp [submitCart, hc, hn, he]
  · intro hm
    rcases hm with h | h <;> constructor <;> simp [submitCart, hc, h]

/-- Witness for C8 at a state whose name and email are whitespace-only:
    validation passes and the outbound call is made. -/
theorem claim_C8_falsy_validation_witness :
    (submitCart (.response true) "t" stateWhitespaceInfo).call.isSome = true
    ∧ (submitCart (.response true) "t" stateWhitespaceInfo).outcome
        ≠ .missingContactInfoError
    ∧ (submitCart (.response true) "t" stateNameMissing).call = none :=
  ⟨((claim_C8_falsy_validation stateWhitespaceInfo (.response true) "t"
      (by decide)).1 (by decide) (by decide)).1,
   ((claim_C8_falsy_validation stateWhitespaceInfo (.response true) "t"
      (by decide)).1 (by decide) (by decide)).2.1,
   ((claim_C8_falsy_validation stateNameMissing (.response true) "t"
      (by decide)).2 (Or.inl (by decide))).1⟩

/-- Setting index `i` of a mapped list to the image of the original element at
    `i` changes nothing. -/
theorem set_map_get {α β : Type} (l : List α) (f : α → β) (i : Nat)
    (h : i < l.length) :
    (l.map f).set i (f (l.get ⟨i, h⟩)) = l.map f := by
  apply List.ext_getElem
  · simp
  · intro n h1 h2
    rw [List.getElem_set]
    split
    · next heq => subst heq; simp
    · rfl

/-- C9: the organization list operation returns the full registry for a
    `super_admin` caller; any other caller receives exactly the organizations
    whose id belongs to the caller's permitted organization set (the empty
    list when no such set exists), and the registry itself is not mutated. -/
theorem claim_C9_list_scoped (caller : Option Caller) (orgs : List Organization) :
    (caller.bind Caller.role = some "super_admin" →
      handleGetOrganizations caller orgs = (orgs, .orgListJson orgs))
    ∧ (caller.bind Caller.role ≠ some "super_admin" →
      (handleGetOrganizations caller orgs).2
        = .orgListJson (orgs.filter
            (fun org => ((caller.bind Caller.organizations).getD []).contains org.id))
      ∧ ∀ o, o ∈ orgs.filter
            (fun org => ((caller.bind Caller.organizations).getD []).contains org.id)
          ↔ o ∈ orgs ∧ o.id ∈ (caller.bind Caller.organizations).getD [])
    ∧ (caller.bind Caller.organizations = none →
        caller.bind Caller.role ≠ some "super_admin" →
      (handleGetOrganizations caller orgs).2 = .orgListJson [])
    ∧ (handleGetOrganizations caller orgs).1 = orgs := by
  refine ⟨?_, ?_, ?_, ?_⟩
  · intro h
    simp [handleGetOrganizations, h]
  · intro h
    refine ⟨by simp [handleGetOrganizations, h], ?_⟩
    intro o
    simp [List.mem_filter, List.elem_iff]
  · intro h1 h2
    simp [handleGetOrganizations, h1, h2]
  · by_cases h : caller.bind Caller.role = some "super_admin" <;>
      simp [handleGetOrganizations, h]

/-- C10: every operation preserves the invariant that all registry records
    have a non-empty name — create rejects a falsy name with 400 leaving the
    registry unchanged, update ignores a falsy name so names are never
    replaced by empty ones, and delete only removes records (sublist). -/
theorem claim_C10_org_name_invariant :
    (∀ body genId now orgs, orgNamesNonEmpty orgs →
       orgNamesNonEmpty (handleCreateOrganization body genId now orgs).1)
    ∧ (∀ body genId now orgs, strFalsy body.name = true →
       handleCreateOrganization body genId now orgs
         = (orgs, .errorJson 400 "Organization name is required"))
    ∧ (∀ orgId updates orgs, strFalsy updates.name = true →
       ((handleUpdateOrganization orgId updates orgs).1.map (fun o => o.name))
         = orgs.map (fun o => o.name))
    ∧ (∀ orgId updates orgs, orgNamesNonEmpty orgs →
       orgNamesNonEmpty (handleUpdateOrganization orgId updates orgs).1)
    ∧ (∀ orgId orgs, List.Sublist (handleDeleteOrganization orgId orgs).1 orgs)
    ∧ (∀ orgId orgs, orgNamesNonEmpty orgs →
       orgNamesNonEmpty (handleDeleteOrganization orgId orgs).1) := by
  refine ⟨?_, ?_, ?_, ?_, ?_, ?_⟩
  · intro body genId now orgs h
    unfold handleCreateOrganization
    by_cases hf : strFalsy body.name
    · rw [if_pos hf]
      exact h
    · rw [if_neg hf]
      intro o ho
      rcases List.mem_append.mp ho with ho | ho
      · exact h o ho
      · simp at ho
        subst ho
        cases hn : body.name with
        | none => rw [hn] at hf; exact absurd rfl hf
        | some s =>
          rw [hn] at hf
          simp [strFalsy] at hf
          simp [hn, hf]
  · intro body genId now orgs hf
    unfold handleCreateOrganization
    rw [if_pos hf]
  · intro orgId updates orgs hf
    unfold handleUpdateOrganization
    by_cases h : orgs.findIdx (fun o => o.id == orgId) < orgs.length
    · rw [dif_pos h]
      simp only
      rw [List.map_set]
      rw [show (if strFalsy updates.name then (orgs.get ⟨_, h⟩).name
          else updates.name.getD "") = (orgs.get ⟨_, h⟩).name from if_pos hf]
      exact set_map_get orgs (fun o => o.name) _ h
    · rw [dif_neg h]
  · intro orgId updates orgs h
    unfold handleUpdateOrganization
    by_cases hlt : orgs.findIdx (fun o => o.id == orgId) < orgs.length
    · rw [dif_pos hlt]
      intro o ho
      rcases List.mem_or_eq_of_mem_set ho with ho | ho
      · exact h o ho
      · subst ho
        simp only
        by_cases hf : strFalsy updates.name
        · rw [if_pos hf]
          exact h _ (orgs.get_mem _ hlt)
        · rw [if_neg hf]
          cases hn : updates.name with
          | none => rw [hn] at hf; exact absurd rfl hf
          | some s =>
            rw [hn] at hf
            simp [strFalsy] at hf
            simp [hf]
    · rw [dif_neg hlt]
      exact h
  · intro orgId orgs
    unfold handleDeleteOrganization
    by_cases h : orgs.findIdx (fun o => o.id == orgId) < orgs.length
    · rw [if_pos h]
      exact List.eraseIdx_sublist orgs _
    · rw [if_neg h]
  · intro orgId orgs h
    unfold handleDeleteOrganization
    by_cases hlt : orgs.findIdx (fun o => o.id == orgId) < orgs.length
    · rw [if_pos hlt]
      intro o ho
      exact h o ((List.eraseIdx_sublist orgs _).mem ho)
    · rw [if_neg hlt]
      exact h

/-- Witness for C9 on a two-record registry: a super_admin caller, a scoped
    caller permitted only "org-1-2", and a caller without a permitted set. -/
theorem claim_C9_list_scoped_witness :
    handleGetOrganizations (some ⟨some "super_admin", none⟩) [orgA, orgB]
      = ([orgA, orgB], .orgListJson [orgA, orgB])
    ∧ (handleGetOrganizations (some ⟨some "admin", some ["org-1-2"]⟩) [orgA, orgB]).2
        = .orgListJson ([orgA, orgB].filter
            (fun org => (["org-1-2"] : List String).contains org.id))
    ∧ (handleGetOrganizations (some ⟨some "admin", none⟩) [orgA, orgB]).2
        = .orgListJson []
    ∧ (handleGetOrganizations (some ⟨some "admin", some ["org-1-2"]⟩) [orgA, orgB]).1
        = [orgA, orgB] :=
  ⟨(claim_C9_list_scoped (some ⟨some "super_admin", none⟩) [orgA, orgB]).1 (by decide),
   ((claim_C9_list_scoped (some ⟨some "admin", some ["org-1-2"]⟩) [orgA, orgB]).2.1
      (by decide)).1,
   (claim_C9_list_scoped (some ⟨some "admin", none⟩) [orgA, orgB]).2.2.1 rfl (by decide),
   (claim_C9_list_scoped (some ⟨some "admin", some ["org-1-2"]⟩) [orgA, orgB]).2.2.2⟩

/-- Witness for C10 on concrete registries: create with a name and without
    one, update with an empty-string name, and delete. -/
theorem claim_C10_org_name_invariant_witness :
    orgNamesNonEmpty
      (handleCreateOrganization ⟨some "Acme", none, none⟩ "org-1-1" "t" []).1
    ∧ handleCreateOrganization ⟨none, none, none⟩ "g" "t" [orgA]
        = ([orgA], .errorJson 400 "Organization name is required")
    ∧ ((handleUpdateOrganization "org-1-1" ⟨some "", none, none⟩ [orgA, orgB]).1.map
        (fun o => o.name)) = ([orgA, orgB].map (fun o => o.name))
    ∧ List.Sublist (handleDeleteOrganization "org-1-1" [orgA, orgB]).1 [orgA, orgB]
    ∧ orgNamesNonEmpty (handleDeleteOrganization "org-1-1" [orgA, orgB]).1 :=
  ⟨claim_C10_org_name_invariant.1 ⟨some "Acme", none, none⟩ "org-1-1" "t" []
     (by unfold orgNamesNonEmpty; decide),
   claim_C10_org_name_invariant.2.1 ⟨none, none, none⟩ "g" "t" [orgA] rfl,
   claim_C10_org_name_invariant.2.2.1 "org-1-1" ⟨some "", none, none⟩ [orgA, orgB]
     (by decide),
   claim_C10_org_name_invariant.2.2.2.2.1 "org-1-1" [orgA, orgB],
   claim_C10_org_name_invariant.2.2.2.2.2 "org-1-1" [orgA, orgB]
     (by unfold orgNamesNonEmpty; decide)⟩
